import Mathlib

/-!
Verification of the error-classification and value-access layer of the
`kvstore` and `configstore` packages of the compute-sdk-go repository.

The packages are thin wrappers over a host ABI (`internal/abi/fastly`).
Each wrapper calls the host exactly once and then classifies the host
result, so every operation is embedded as a pure function of the result
of the host call.  The host ABI itself is outside the wrapper code and is
modelled from the spec: host failures carry an optional recognized status
code (`NONE`, `INVAL`, `BADF`, `UNSUPPORTED`, or another numeric code),
and non-host (transport-level) failures carry no status at all.
-/

/-- Modelled from the spec: the status codes of the host ABI
(`internal/abi/fastly`, not under the wrapper sources): symbolic names
`NONE` (absent/empty), `INVAL` (invalid argument/name/key), `BADF`
(bad/missing handle), `UNSUPPORTED` (name too long), plus a catch-all
variant carrying any other host-defined numeric value. -/
inductive FastlyStatus where
  | NONE
  | INVAL
  | BADF
  | UNSUPPORTED
  | OTHER (code : Nat)
deriving DecidableEq, Repr

/-- Rendering of a status code into an error message, used where the Go
code formats a status with `%s`. -/
def FastlyStatus.str : FastlyStatus → String
  | .NONE => "None"
  | .INVAL => "Inval"
  | .BADF => "Badf"
  | .UNSUPPORTED => "Unsupported"
  | .OTHER c => "Status " ++ toString c

/-- Go error values as the wrappers see them: a host error carrying a
Fastly status, a transport-level error with no status, a sentinel created
by `errors.New`, or a wrapping created by `fmt.Errorf("%w (%s)", inner, s)`. -/
inductive GoError where
  | fastlyErr (status : FastlyStatus)
  | transport (m : String)
  | sentinel (m : String)
  | wrap (inner : GoError) (statusText : String)
deriving DecidableEq, Repr

/-- Error message of a Go error value; `wrap` appends the formatted
status text to the message of the inner error. -/
def GoError.message : GoError → String
  | .fastlyErr s => "Fastly error: " ++ s.str
  | .transport m => m
  | .sentinel m => m
  | .wrap inner s => inner.message ++ " (" ++ s ++ ")"

/-- Modelled from the spec: `fastly.IsFastlyError` (in the host ABI
package, not under the wrapper sources) attempts to interpret a raw
failure as a recognized host status code; it yields the status for host
errors (unwrapping wrapped errors, per `errors.As`) and nothing for
transport-level errors and sentinels. -/
def IsFastlyError : GoError → Option FastlyStatus
  | .fastlyErr s => some s
  | .wrap inner _ => IsFastlyError inner
  | _ => none

/-- The Go function `errors.Is`: direct equality, or equality after unwrapping. -/
def errorsIs : GoError → GoError → Bool
  | .wrap inner s, target => (GoError.wrap inner s == target) || errorsIs inner target
  | e, target => e == target

namespace kvstore

/-- `ErrStoreNotFound` indicates that the named store does not exist. -/
def ErrStoreNotFound : GoError := .sentinel "kvstore: store not found"

/-- `ErrKeyNotFound` indicates that the named key does not exist in this KV store. -/
def ErrKeyNotFound : GoError := .sentinel "kvstore: key not found"

/-- `ErrInvalidKey` indicates that the given key is invalid. -/
def ErrInvalidKey : GoError := .sentinel "kvstore: invalid key"

/-- `ErrUnexpected` indicates that an unexpected error occurred. -/
def ErrUnexpected : GoError := .sentinel "kvstore: unexpected error"

/-- Byte strings: Go strings and `[]byte` values, byte for byte. -/
abbrev Bytes := List Nat

/-- Result of one `io.ReadAll` call on the underlying reader: either all
remaining bytes with no error, or some bytes together with a read error. -/
inductive ReadResult where
  | ok (bytes : Bytes)
  | fail (partialBytes : Bytes) (m : String)
deriving DecidableEq, Repr

/-- `Entry` represents a KV store value: an embedded reader over the
contents of the value, plus the string cache fields `validString` and `s`.
The reader is modelled by the successive results its remaining stream
would give to `io.ReadAll` calls; a drained reader yields no more
results (`io.ReadAll` then returns empty bytes and no error). -/
structure Entry where
  reader : List ReadResult
  validString : Bool
  s : Bytes
deriving DecidableEq, Repr

/-- `io.ReadAll` on the modelled reader: consumes the next read result;
on a drained reader it returns empty bytes and no error. -/
def readAll : List ReadResult → ReadResult × List ReadResult
  | [] => (.ok [], [])
  | r :: rest => (r, rest)

/-- `Entry.String` consumes the entire contents of the Entry and returns
it as a string.  Since the Go method mutates the receiver, the embedding
returns the result together with the updated entry. -/
def Entry.String (e : Entry) : Bytes × Entry :=
  if e.validString then
    (e.s, e)
  else
    match readAll e.reader with
    | (.fail _ _, rest) => ([], { e with reader := rest })
    | (.ok b, rest) => (b, { reader := rest, validString := true, s := b })

/-- Opaque handle returned by the host ABI call `OpenKVStore`. -/
structure KVHandle where
  id : Nat
deriving DecidableEq, Repr

/-- `Store` represents a Fastly KV store. -/
structure Store where
  kvstore : KVHandle
deriving DecidableEq, Repr

/-- `Open` returns a handle to the named kv store.  The wrapper calls
`fastly.OpenKVStore` once; the embedding takes the result of that call. -/
def Open (hostResult : Except GoError KVHandle) : Except GoError Store :=
  match hostResult with
  | .ok o => .ok ⟨o⟩
  | .error err =>
    match IsFastlyError err with
    | some .INVAL => .error ErrStoreNotFound
    | some status => .error (.wrap ErrUnexpected status.str)
    | none => .error err

/-- `Lookup` fetches a key from the associated KV store.  The embedding
takes the result of the single `s.kvstore.Lookup(key)` host call; on
success the reader of the returned value is wrapped in an Entry. -/
def Store.Lookup (hostResult : Except GoError Bytes) : Except GoError Entry :=
  match hostResult with
  | .ok val => .ok { reader := [.ok val], validString := false, s := [] }
  | .error err =>
    match IsFastlyError err with
    | some .NONE => .error ErrKeyNotFound
    | some .INVAL => .error ErrInvalidKey
    | some status => .error (.wrap ErrUnexpected status.str)
    | none => .error err

/-- `Insert` adds a key to the associated KV store.  The embedding takes
the error result of the single `s.kvstore.Insert(key, value)` host call. -/
def Store.Insert (hostResult : Option GoError) : Option GoError :=
  match hostResult with
  | none => none
  | some err =>
    match IsFastlyError err with
    | some .INVAL => some ErrInvalidKey
    | some status => some (.wrap ErrUnexpected status.str)
    | none => some err

/-- `Delete` removes a key from the associated KV store.  The embedding
takes the error result of the single `s.kvstore.Delete(key)` host call. -/
def Store.Delete (hostResult : Option GoError) : Option GoError :=
  match hostResult with
  | none => none
  | some err =>
    match IsFastlyError err with
    | some .NONE => some ErrKeyNotFound
    | some .INVAL => some ErrInvalidKey
    | some status => some (.wrap ErrUnexpected status.str)
    | none => some err

/-- Modelled from the spec: the idealized host KV store backing
`fastly.KVStore` (not under the wrapper sources), a key/value map. -/
abbrev HostMap := List (String × Bytes)

/-- Modelled from the spec: the host ABI `insert`, which stores the
bytes of the value under the key. -/
def hostInsert (m : HostMap) (k : String) (v : Bytes) : HostMap :=
  (k, v) :: m.filter (fun p => !(p.1 == k))

/-- Modelled from the spec: the host view of the map, point lookup. -/
def hostGet (m : HostMap) (k : String) : Option Bytes :=
  (m.find? (fun p => p.1 == k)).map (fun p => p.2)

/-- Modelled from the spec: the result of the host ABI `lookup` call — the
stored bytes when the key is present, the `NONE` host status otherwise. -/
def hostLookupResult (m : HostMap) (k : String) : Except GoError Bytes :=
  match hostGet m k with
  | some v => .ok v
  | none => .error (.fastlyErr .NONE)

/-- Running the wrapper `Insert` against the idealized host: the host
stores the bytes and reports success, which the wrapper passes through. -/
def insertOnHost (m : HostMap) (k : String) (v : Bytes) : Option GoError × HostMap :=
  (Store.Insert none, hostInsert m k v)

/-- Running the wrapper `Lookup` against the idealized host. -/
def lookupOnHost (m : HostMap) (k : String) : Except GoError Entry :=
  Store.Lookup (hostLookupResult m k)

end kvstore

namespace configstore

/-- `ErrStoreNotFound` indicates the named config store does not exist. -/
def ErrStoreNotFound : GoError := .sentinel "config store not found"

/-- `ErrStoreNameEmpty` indicates the given config store name was empty. -/
def ErrStoreNameEmpty : GoError := .sentinel "config store name was empty"

/-- `ErrStoreNameInvalid` indicates the given config store name was invalid. -/
def ErrStoreNameInvalid : GoError := .sentinel "config store name contained invalid characters"

/-- `ErrStoreNameTooLong` indicates the given config store name was too long. -/
def ErrStoreNameTooLong : GoError := .sentinel "config store name too long"

/-- `ErrKeyNotFound` indicates a key is not in a config store. -/
def ErrKeyNotFound : GoError := .sentinel "key not found"

/-- Opaque handle returned by the host ABI call `OpenDictionary`. -/
structure DictHandle where
  id : Nat
deriving DecidableEq, Repr

/-- `Store` is a read-only representation of a config store. -/
structure Store where
  abiDict : DictHandle
deriving DecidableEq, Repr

/-- `Open` returns a config store with the given name.  The wrapper calls
`fastly.OpenDictionary` once; the embedding takes the result of that call. -/
def Open (hostResult : Except GoError DictHandle) : Except GoError Store :=
  match hostResult with
  | .ok d => .ok ⟨d⟩
  | .error err =>
    match IsFastlyError err with
    | some .BADF => .error ErrStoreNotFound
    | some .NONE => .error ErrStoreNameEmpty
    | some .UNSUPPORTED => .error ErrStoreNameTooLong
    | some .INVAL => .error ErrStoreNameInvalid
    | _ => .error err

/-- `Get` returns the item in the config store with the given key.  The
receiver is modelled as an `Option Store` so that the Go nil-receiver
guard is visible; `host` is the `abiDict.Get` operation of the store operation, called
at most once.  The Go method returns a string and an error value; the
embedding returns both. -/
def Store.Get (s : Option Store) (host : String → String × Option GoError)
    (key : String) : String × Option GoError :=
  match s with
  | none => ("", some ErrKeyNotFound)
  | some _ =>
    match host key with
    | (v, none) => (v, none)
    | (_, some err) =>
      match IsFastlyError err with
      | some .BADF => ("", some ErrStoreNotFound)
      | some .NONE => ("", some ErrKeyNotFound)
      | _ => ("", some err)

end configstore

/-- Claim C3: calling the config store Get on a nil (unopened) Store
receiver returns the empty string together with the key-not-found
sentinel, for every key and independently of the host operation — the
host is never consulted, so the nil receiver is never dereferenced. -/
theorem configGet_nilReceiver (host : String → String × Option GoError) (key : String) :
    configstore.Store.Get none host key = ("", some configstore.ErrKeyNotFound) :=
  rfl

/-- Claim C2: for every key and value, a KV-store Insert of the value
under the key against the idealized host map succeeds, and a subsequent
Lookup of the key succeeds with an Entry whose contents drain to exactly
the inserted bytes. -/
theorem insert_lookup_roundTrip (m : kvstore.HostMap) (k : String) (v : kvstore.Bytes) :
    (kvstore.insertOnHost m k v).1 = none ∧
    ∃ e : kvstore.Entry,
      kvstore.lookupOnHost (kvstore.insertOnHost m k v).2 k = .ok e ∧
      (e.String).1 = v := by
  refine ⟨rfl, ⟨{ reader := [.ok v], validString := false, s := [] }, ?_, ?_⟩⟩
  · simp [kvstore.lookupOnHost, kvstore.hostLookupResult, kvstore.hostGet,
      kvstore.insertOnHost, kvstore.hostInsert, kvstore.Store.Lookup, List.find?]
  · simp [kvstore.Entry.String, kvstore.readAll]

/-- Claim C8: if draining the underlying stream inside Entry.String
fails, String returns the empty string; neither the error nor the
partial data read before the failure is surfaced. -/
theorem entryString_drainErrorDiscarded (e : kvstore.Entry) (p : kvstore.Bytes)
    (m : String) (rest : List kvstore.ReadResult)
    (hv : e.validString = false) (hr : e.reader = .fail p m :: rest) :
    (e.String).1 = [] := by
  simp [kvstore.Entry.String, hv, hr, kvstore.readAll]

/-- Witness for C8 at a concrete entry whose drain fails after three
bytes of partial data. -/
theorem entryString_drainErrorDiscarded_witness :
    (kvstore.Entry.String
      { reader := [.fail [1, 2, 3] "read error"], validString := false, s := [9] }).1 = [] :=
  entryString_drainErrorDiscarded _ [1, 2, 3] "read error" [] rfl rfl

/-- Claim C9: when the first Entry.String call fails mid-drain, the
empty result is not cached: the valid-string flag stays false, the
failing read result is consumed, and a subsequent String call reads the
underlying stream again (returning whatever the next read yields). -/
theorem entryString_failureNotCached (e : kvstore.Entry) (p : kvstore.Bytes)
    (m : String) (rest : List kvstore.ReadResult)
    (hv : e.validString = false) (hr : e.reader = .fail p m :: rest) :
    (e.String).2.validString = false ∧ (e.String).2.reader = rest ∧
    ∀ b rest2, rest = .ok b :: rest2 → ((e.String).2.String).1 = b := by
  refine ⟨?_, ?_, ?_⟩
  · simp [kvstore.Entry.String, hv, hr, kvstore.readAll]
  · simp [kvstore.Entry.String, hv, hr, kvstore.readAll]
  · intro b rest2 h2
    simp [kvstore.Entry.String, hv, hr, h2, kvstore.readAll]

/-- Witness for C9 at a concrete entry: the failed first drain is not
cached and the second call returns the bytes of the next read. -/
theorem entryString_failureNotCached_witness :
    (kvstore.Entry.String
      { reader := [.fail [] "read error", .ok [65]], validString := false, s := [] }).2.validString
        = false ∧
    ((kvstore.Entry.String
      { reader := [.fail [] "read error", .ok [65]], validString := false, s := [] }).2.String).1
        = [65] :=
  ⟨(entryString_failureNotCached _ [] "read error" [.ok [65]] rfl rfl).1,
   (entryString_failureNotCached _ [] "read error" [.ok [65]] rfl rfl).2.2 [65] [] rfl⟩

/-- Counterexample to claim C7 as stated: an Entry whose first drain
fails does not return the identical string on the two calls — the first
call yields the empty string, the second call reads the underlying
stream again and yields different bytes, and the reader state shrinks
across the second call (so the stream was re-consumed). -/
theorem entryString_idempotent_cex :
    ((kvstore.Entry.String
        { reader := [.fail [] "read error", .ok [65]], validString := false, s := [] }).1
      = []) ∧
    (((kvstore.Entry.String
        { reader := [.fail [] "read error", .ok [65]], validString := false, s := [] }).2.String).1
      = [65]) ∧
    (([] : kvstore.Bytes) ≠ [65]) ∧
    (((kvstore.Entry.String
        { reader := [.fail [] "read error", .ok [65]], validString := false, s := [] }).2.String).2.reader
      ≠ (kvstore.Entry.String
        { reader := [.fail [] "read error", .ok [65]], validString := false, s := [] }).2.reader) := by
  refine ⟨rfl, rfl, ?_, ?_⟩ <;> decide

/-- Claim C7 (amended): Entry.String is idempotent once a call has
succeeded.  If the cache flag is already set, every call returns the
cached string and never touches the reader; if the first call drains the
stream successfully, it returns those bytes and the second call returns
the same bytes while leaving the entry (in particular its reader)
completely unchanged — no further read occurs. -/
theorem entryString_idempotentAfterSuccess (e : kvstore.Entry) :
    (e.validString = true →
      e.String = (e.s, e) ∧ (e.String).2.String = (e.s, e)) ∧
    (∀ b rest, e.validString = false → e.reader = .ok b :: rest →
      (e.String).1 = b ∧ (e.String).2.String = (b, (e.String).2)) := by
  constructor
  · intro hv
    constructor
    · simp [kvstore.Entry.String, hv]
    · simp [kvstore.Entry.String, hv]
  · intro b rest hv hr
    constructor
    · simp [kvstore.Entry.String, hv, hr, kvstore.readAll]
    · simp [kvstore.Entry.String, hv, hr, kvstore.readAll]

/-- Witness for the amended C7 at a concrete entry with a successful
first drain: both calls return the same bytes and the second call leaves
the entry unchanged. -/
theorem entryString_idempotentAfterSuccess_witness :
    ((kvstore.Entry.String { reader := [.ok [99]], validString := false, s := [] }).1 = [99]) ∧
    ((kvstore.Entry.String { reader := [.ok [99]], validString := false, s := [] }).2.String
      = ([99], (kvstore.Entry.String { reader := [.ok [99]], validString := false, s := [] }).2)) :=
  (entryString_idempotentAfterSuccess
    { reader := [.ok [99]], validString := false, s := [] }).2 [99] [] rfl rfl

/-- Claim C4: config-store Open maps host status BADF to store-not-found,
NONE to store-name-empty, UNSUPPORTED to store-name-too-long and INVAL
to store-name-invalid; any other failure (an unrecognized numeric status
or a non-host error) yields the raw error; and the four sentinels are
pairwise distinct. -/
theorem configOpen_classification (err : GoError) :
    (IsFastlyError err = some .BADF →
      configstore.Open (.error err) = .error configstore.ErrStoreNotFound) ∧
    (IsFastlyError err = some .NONE →
      configstore.Open (.error err) = .error configstore.ErrStoreNameEmpty) ∧
    (IsFastlyError err = some .UNSUPPORTED →
      configstore.Open (.error err) = .error configstore.ErrStoreNameTooLong) ∧
    (IsFastlyError err = some .INVAL →
      configstore.Open (.error err) = .error configstore.ErrStoreNameInvalid) ∧
    (∀ c, IsFastlyError err = some (.OTHER c) →
      configstore.Open (.error err) = .error err) ∧
    (IsFastlyError err = none → configstore.Open (.error err) = .error err) ∧
    List.Pairwise Ne
      [configstore.ErrStoreNotFound, configstore.ErrStoreNameEmpty,
       configstore.ErrStoreNameTooLong, configstore.ErrStoreNameInvalid] := by
  refine ⟨?_, ?_, ?_, ?_, ?_, ?_, by decide⟩
  · intro h; simp [configstore.Open, h]
  · intro h; simp [configstore.Open, h]
  · intro h; simp [configstore.Open, h]
  · intro h; simp [configstore.Open, h]
  · intro c h; simp [configstore.Open, h]
  · intro h; simp [configstore.Open, h]

/-- Witness for C4 at concrete host errors: a bare BADF host status maps
to the store-not-found sentinel. -/
theorem configOpen_classification_witness :
    configstore.Open (.error (GoError.fastlyErr .BADF))
      = .error configstore.ErrStoreNotFound :=
  (configOpen_classification (GoError.fastlyErr .BADF)).1 rfl

/-- Claim C5: KV-store Open succeeds with a store wrapping the handle on
host success; maps the INVAL host status to the store-not-found
sentinel; turns every other recognized host status into an error
wrapping the unexpected sentinel and carrying the status text (so
errors.Is finds ErrUnexpected in it); and passes a non-host error
through unchanged. -/
theorem kvOpen_classification (err : GoError) (h : kvstore.KVHandle) :
    kvstore.Open (.ok h) = .ok ⟨h⟩ ∧
    (IsFastlyError err = some .INVAL →
      kvstore.Open (.error err) = .error kvstore.ErrStoreNotFound) ∧
    (∀ st, IsFastlyError err = some st → st ≠ .INVAL →
      kvstore.Open (.error err) = .error (.wrap kvstore.ErrUnexpected st.str) ∧
      errorsIs (.wrap kvstore.ErrUnexpected st.str) kvstore.ErrUnexpected = true) ∧
    (IsFastlyError err = none → kvstore.Open (.error err) = .error err) := by
  refine ⟨rfl, ?_, ?_, ?_⟩
  · intro hst; simp [kvstore.Open, hst]
  · intro st hst hne
    refine ⟨?_, ?_⟩
    · cases st with
      | INVAL => exact absurd rfl hne
      | NONE => simp [kvstore.Open, hst]
      | BADF => simp [kvstore.Open, hst]
      | UNSUPPORTED => simp [kvstore.Open, hst]
      | OTHER c => simp [kvstore.Open, hst]
    · simp [errorsIs, kvstore.ErrUnexpected]
  · intro hst; simp [kvstore.Open, hst]

/-- Witness for C5 at concrete inputs: an unrecognized numeric host
status is wrapped as unexpected with the status text, and a transport
error passes through unchanged. -/
theorem kvOpen_classification_witness :
    (kvstore.Open (.error (GoError.fastlyErr (.OTHER 7)))
      = .error (.wrap kvstore.ErrUnexpected (FastlyStatus.OTHER 7).str)) ∧
    (kvstore.Open (.error (GoError.transport "link down"))
      = .error (GoError.transport "link down")) :=
  ⟨((kvOpen_classification (GoError.fastlyErr (.OTHER 7)) ⟨0⟩).2.2.1
      (.OTHER 7) rfl (by decide)).1,
   (kvOpen_classification (GoError.transport "link down") ⟨0⟩).2.2.2 rfl⟩

/-- Claim C6: KV-store Delete classifies failures exactly like Lookup —
the NONE host status yields the key-not-found sentinel (which is not the
unexpected error), INVAL yields the invalid-key sentinel, any other
recognized status yields an error wrapping the unexpected sentinel, a
non-host error is returned unchanged, and for every host error Delete
returns precisely the error Lookup would return. -/
theorem kvDelete_classification (err : GoError) :
    (IsFastlyError err = some .NONE →
      kvstore.Store.Delete (some err) = some kvstore.ErrKeyNotFound ∧
      errorsIs kvstore.ErrKeyNotFound kvstore.ErrUnexpected = false) ∧
    (IsFastlyError err = some .INVAL →
      kvstore.Store.Delete (some err) = some kvstore.ErrInvalidKey) ∧
    (∀ st, IsFastlyError err = some st → st ≠ .NONE → st ≠ .INVAL →
      kvstore.Store.Delete (some err) = some (.wrap kvstore.ErrUnexpected st.str)) ∧
    (IsFastlyError err = none → kvstore.Store.Delete (some err) = some err) ∧
    (∀ e, kvstore.Store.Lookup (.error err) = .error e ↔
      kvstore.Store.Delete (some err) = some e) := by
  refine ⟨?_, ?_, ?_, ?_, ?_⟩
  · intro h; exact ⟨by simp [kvstore.Store.Delete, h], by decide⟩
  · intro h; simp [kvstore.Store.Delete, h]
  · intro st h h1 h2
    cases st with
    | NONE => exact absurd rfl h1
    | INVAL => exact absurd rfl h2
    | BADF => simp [kvstore.Store.Delete, h]
    | UNSUPPORTED => simp [kvstore.Store.Delete, h]
    | OTHER c => simp [kvstore.Store.Delete, h]
  · intro h; simp [kvstore.Store.Delete, h]
  · intro e
    cases hh : IsFastlyError err with
    | none => simp [kvstore.Store.Delete, kvstore.Store.Lookup, hh]
    | some st => cases st <;> simp [kvstore.Store.Delete, kvstore.Store.Lookup, hh]

/-- Witness for C6 at a concrete host error: the NONE host status makes
Delete return the key-not-found sentinel. -/
theorem kvDelete_classification_witness :
    kvstore.Store.Delete (some (GoError.fastlyErr .NONE))
      = some kvstore.ErrKeyNotFound :=
  ((kvDelete_classification (GoError.fastlyErr .NONE)).1 rfl).1

/-- Counterexample to claim C1 as stated: in the config store, Get
receives a host error carrying the recognized status INVAL — a status
with no entry in the Get mapping table — and returns it to the caller
unchanged, rather than surfacing it as the unexpected-error kind as the
claim requires for every recognized-but-unmapped status in both stores. -/
theorem classification_uniform_cex :
    IsFastlyError (GoError.fastlyErr .INVAL) = some .INVAL ∧
    configstore.Store.Get (some ⟨⟨0⟩⟩)
        (fun _ => ("", some (GoError.fastlyErr .INVAL))) "k"
      = ("", some (GoError.fastlyErr .INVAL)) :=
  ⟨rfl, rfl⟩

/-- Claim C1 (amended): a failing operation classifies its error as
follows.  A non-host (transport-level) error is returned unchanged by
every operation of both stores.  A recognized host status is mapped
through the per-operation table; in the KV store a recognized status
outside the table surfaces as an error wrapping the unexpected sentinel
with the status text preserved, while in the config store any status
outside the table — including recognized statuses such as INVAL in Get —
is returned to the caller unchanged. -/
theorem classification_uniform_amended (err : GoError) :
    (IsFastlyError err = none →
      kvstore.Open (.error err) = .error err ∧
      kvstore.Store.Lookup (.error err) = .error err ∧
      kvstore.Store.Insert (some err) = some err ∧
      kvstore.Store.Delete (some err) = some err ∧
      configstore.Open (.error err) = .error err ∧
      ∀ d k, configstore.Store.Get (some d) (fun _ => ("", some err)) k
        = ("", some err)) ∧
    (∀ st, IsFastlyError err = some st →
      kvstore.Open (.error err) = .error (match st with
        | .INVAL => kvstore.ErrStoreNotFound
        | s => .wrap kvstore.ErrUnexpected s.str) ∧
      kvstore.Store.Lookup (.error err) = .error (match st with
        | .NONE => kvstore.ErrKeyNotFound
        | .INVAL => kvstore.ErrInvalidKey
        | s => .wrap kvstore.ErrUnexpected s.str) ∧
      kvstore.Store.Insert (some err) = some (match st with
        | .INVAL => kvstore.ErrInvalidKey
        | s => .wrap kvstore.ErrUnexpected s.str) ∧
      kvstore.Store.Delete (some err) = some (match st with
        | .NONE => kvstore.ErrKeyNotFound
        | .INVAL => kvstore.ErrInvalidKey
        | s => .wrap kvstore.ErrUnexpected s.str) ∧
      configstore.Open (.error err) = .error (match st with
        | .BADF => configstore.ErrStoreNotFound
        | .NONE => configstore.ErrStoreNameEmpty
        | .UNSUPPORTED => configstore.ErrStoreNameTooLong
        | .INVAL => configstore.ErrStoreNameInvalid
        | _ => err) ∧
      ∀ d k, configstore.Store.Get (some d) (fun _ => ("", some err)) k
        = ("", some (match st with
            | .BADF => configstore.ErrStoreNotFound
            | .NONE => configstore.ErrKeyNotFound
            | _ => err))) := by
  constructor
  · intro h
    refine ⟨?_, ?_, ?_, ?_, ?_, ?_⟩ <;>
      simp [kvstore.Open, kvstore.Store.Lookup, kvstore.Store.Insert,
        kvstore.Store.Delete, configstore.Open, configstore.Store.Get, h]
  · intro st h
    cases st <;>
      refine ⟨?_, ?_, ?_, ?_, ?_, ?_⟩ <;>
      simp [kvstore.Open, kvstore.Store.Lookup, kvstore.Store.Insert,
        kvstore.Store.Delete, configstore.Open, configstore.Store.Get, h]

/-- Witness for the amended C1 at concrete inputs: a transport error
passes through Lookup unchanged, and the recognized status BADF maps
through the Lookup table to an unexpected wrapping. -/
theorem classification_uniform_amended_witness :
    (kvstore.Store.Lookup (.error (GoError.transport "link down"))
      = .error (GoError.transport "link down")) ∧
    (kvstore.Store.Lookup (.error (GoError.fastlyErr .BADF))
      = .error (.wrap kvstore.ErrUnexpected FastlyStatus.BADF.str)) :=
  ⟨((classification_uniform_amended (GoError.transport "link down")).1 rfl).2.1,
   ((classification_uniform_amended (GoError.fastlyErr .BADF)).2 .BADF rfl).2.1⟩

/-- Claim C10: the config store never produces an unexpected-error kind.
Every error outside the explicit case list of Open (the statuses BADF,
NONE, UNSUPPORTED, INVAL) or of Get (BADF, NONE) is returned verbatim —
including recognized statuses such as INVAL in Get — and every error the
two operations can return is one of the five config-store sentinels or
the incoming error itself, never a wrapping. -/
theorem config_noUnexpected (err : GoError) :
    (∀ c, IsFastlyError err = some (.OTHER c) →
      configstore.Open (.error err) = .error err) ∧
    (IsFastlyError err = none → configstore.Open (.error err) = .error err) ∧
    (∀ st, IsFastlyError err = some st → st ≠ .BADF → st ≠ .NONE →
      ∀ d k, configstore.Store.Get (some d) (fun _ => ("", some err)) k
        = ("", some err)) ∧
    (IsFastlyError err = none →
      ∀ d k, configstore.Store.Get (some d) (fun _ => ("", some err)) k
        = ("", some err)) ∧
    (∀ e, configstore.Open (.error err) = .error e →
      e = configstore.ErrStoreNotFound ∨ e = configstore.ErrStoreNameEmpty ∨
      e = configstore.ErrStoreNameTooLong ∨ e = configstore.ErrStoreNameInvalid ∨
      e = err) ∧
    (∀ d k v e, configstore.Store.Get (some d) (fun _ => (v, some err)) k
        = ("", some e) →
      e = configstore.ErrStoreNotFound ∨ e = configstore.ErrKeyNotFound ∨ e = err) := by
  refine ⟨?_, ?_, ?_, ?_, ?_, ?_⟩
  · intro c h; simp [configstore.Open, h]
  · intro h; simp [configstore.Open, h]
  · intro st h h1 h2
    cases st with
    | BADF => exact absurd rfl h1
    | NONE => exact absurd rfl h2
    | INVAL => simp [configstore.Store.Get, h]
    | UNSUPPORTED => simp [configstore.Store.Get, h]
    | OTHER c => simp [configstore.Store.Get, h]
  · intro h; simp [configstore.Store.Get, h]
  · intro e he
    revert he
    cases hh : IsFastlyError err with
    | none => simp [configstore.Open, hh]; intro he; simp [he]
    | some st =>
      cases st <;> simp [configstore.Open, hh] <;> intro he <;> simp [he]
  · intro d k v e he
    revert he
    cases hh : IsFastlyError err with
    | none => simp [configstore.Store.Get, hh]; intro he; simp [he]
    | some st =>
      cases st <;> simp [configstore.Store.Get, hh] <;> intro he <;> simp [he]

/-- Witness for C10 at concrete inputs: Get returns a host error with
the recognized status INVAL verbatim, and Open returns an unrecognized
numeric status verbatim. -/
theorem config_noUnexpected_witness :
    (configstore.Store.Get (some ⟨⟨1⟩⟩)
        (fun _ => ("", some (GoError.fastlyErr .INVAL))) "key"
      = ("", some (GoError.fastlyErr .INVAL))) ∧
    (configstore.Open (.error (GoError.fastlyErr (.OTHER 42)))
      = .error (GoError.fastlyErr (.OTHER 42))) :=
  ⟨(config_noUnexpected (GoError.fastlyErr .INVAL)).2.2.1
      .INVAL rfl (by decide) (by decide) ⟨⟨1⟩⟩ "key",
   (config_noUnexpected (GoError.fastlyErr (.OTHER 42))).1 42 rfl⟩
